import Mathlib

/-!
# Verification of the xGoal surface-estimation pipeline

Shallow embedding of the numeric core of the `DaB_Project_Sports` repository
(`src/func_class.py`, `src/Main.py`): grid construction, cubic scattered-data
interpolation via `scipy.interpolate.griddata`, negative clamping, Gaussian
smoothing via `scipy.ndimage.gaussian_filter`, surface differencing, and the
player/team record-aggregation logic.

Real values are modelled by `ℚ`.  The two numeric-library routines whose exact
values are transcendental (the Clough–Tocher cubic interpolant used by
`griddata(method='cubic')` and the discrete Gaussian weights
`exp(-k^2/(2*sigma^2))` used by `gaussian_filter`) are taken as parameters of
the pipeline; everything proved below holds for every instantiation of those
parameters (with the weight-nonnegativity fact of the true Gaussian kernel as
an explicit hypothesis where it is used).  The structural behaviour of the
library calls — when `griddata` raises a Qhull degeneracy error, that the fill
value is used outside the data's support, the reflect boundary handling and
radius `int(truncate*sigma + 0.5)` of `gaussian_filter`, NumPy broadcasting of
`-`, half-to-even rounding of `np.round`, and `pd.concat` refusing an empty
list — is embedded from those libraries' documented semantics, since the
source calls them directly.
-/

set_option autoImplicit false

namespace Sports

/-- A planar point with rational coordinates (a shot location, or a grid
query node). -/
structure Pt where
  x : ℚ
  y : ℚ
deriving DecidableEq, Repr

/-- One cleaned shot record, keeping the columns the estimation pipeline and
the `Player`/`Team` classes read: `shooterName`, `xCordAdjusted`,
`yCordAdjusted`, `xGoal` and `event`. -/
structure ShotRecord where
  shooterName : String
  xCord : ℚ
  yCord : ℚ
  xGoal : ℚ
  event : String
deriving DecidableEq, Repr

/-- A surface: the (85, 100) float array produced by the pipeline, modelled as
a total function on row and column indices (rows `0..84`, columns `0..99` are
the real cells; the function is totalised outside that range). -/
abbrev Surface : Type := ℕ → ℕ → ℚ

/-- `np.linspace a b n` at index `i`: `n` evenly spaced samples over `[a, b]`
inclusive, `a + i * (b - a) / (n - 1)`. -/
def linspace (a b : ℚ) (n : ℕ) (i : ℕ) : ℚ :=
  a + (b - a) * i / (n - 1)

/-- `np.round` on a scalar: round to the nearest integer, ties to the even
integer (IEEE / NumPy half-to-even). -/
def roundHalfEven (q : ℚ) : ℤ :=
  if q - ⌊q⌋ < 1/2 then ⌊q⌋
  else if 1/2 < q - ⌊q⌋ then ⌊q⌋ + 1
  else if 2 ∣ ⌊q⌋ then ⌊q⌋ else ⌊q⌋ + 1

/-- The raw x-axis `np.linspace(0, 100, 100)` of the mesh grid
(`func_class.py` line 46, `Main.py` line 31). -/
def xsRaw (j : ℕ) : ℚ := linspace 0 100 100 j

/-- The raw y-axis `np.linspace(-42.5, 42.5, 85)` of the mesh grid. -/
def ysRaw (i : ℕ) : ℚ := linspace (-42.5) 42.5 85 i

/-- Column coordinate after `np.round`: entry `j` of the rounded x-axis. -/
def xAxis (j : ℕ) : ℤ := roundHalfEven (xsRaw j)

/-- Row coordinate after `np.round`: entry `i` of the rounded y-axis. -/
def yAxis (i : ℕ) : ℤ := roundHalfEven (ysRaw i)

/-- Grid node `(i, j)` of the rounded `np.meshgrid`: with
`[x, y] = np.round(np.meshgrid(xs, ys))` of shapes `(85, 100)`,
`x[i][j] = round(xs[j])` and `y[i][j] = round(ys[i])`; the pair is the
interpolation query point for cell `(i, j)`. -/
def gridNode (i j : ℕ) : Pt :=
  ⟨(xAxis j : ℚ), (yAxis i : ℚ)⟩

/-- Three points are collinear: the cross product of `b - a` and `c - a`
vanishes.  Exact over `ℚ`. -/
def collinearB (a b c : Pt) : Bool :=
  (b.x - a.x) * (c.y - a.y) == (b.y - a.y) * (c.x - a.x)

/-- The point set is affinely degenerate: every triple is collinear (this
includes the empty, one-point and two-point sets, and any set of coincident
or aligned points).  Qhull — hence `scipy.spatial.Delaunay`, hence
`griddata(method='cubic')` — fails on exactly these inputs instead of
producing a triangulation. -/
def allCollinear (l : List Pt) : Bool :=
  l.all fun a => l.all fun b => l.all fun c => collinearB a b c

/-- Errors raised out of the embedded library calls. -/
inductive PipeError where
  /-- `scipy.spatial.QhullError`: degenerate input to the Delaunay
  triangulation underlying cubic `griddata`. -/
  | qhullDegenerate : PipeError
  /-- `ValueError` from `pd.concat([])`: no objects to concatenate. -/
  | emptyConcat : PipeError
  /-- `ValueError` from `Player.__init__`: player name not in the data. -/
  | playerNotFound : PipeError
  /-- `ValueError` from NumPy broadcasting: operands could not be broadcast
  together. -/
  | shapeMismatch : PipeError
deriving DecidableEq, Repr

/-- The shape of the Clough–Tocher piecewise-cubic interpolant that
`griddata(method='cubic')` fits to the samples: from the sample points and
their values it yields, at a query point, `some v` (the cubic value) inside
the convex hull of the samples and `none` outside it.  The precise values are
transcendental in the inputs, so the pipeline is parameterised over this
function; every theorem below holds for all of them. -/
abbrev Interp : Type :=
  List Pt → List ℚ → Pt → Option ℚ

/-- Shot positions `(data['xCordAdjusted'], data['yCordAdjusted'])` as a point
list. -/
def points (recs : List ShotRecord) : List Pt :=
  recs.map fun r => ⟨r.xCord, r.yCord⟩

/-- Shot values `data['xGoal']`. -/
def values (recs : List ShotRecord) : List ℚ :=
  recs.map fun r => r.xGoal

/-- The array returned by a successful
`griddata(points, vals, (x, y), method='cubic', fill_value=0)` call: the
interpolant evaluated at every rounded grid node, with the fill value `0` at
nodes outside the convex hull of the sample points (where the interpolant
yields `none`). -/
def interpSurface (ι : Interp) (pts : List Pt) (vals : List ℚ) : Surface :=
  fun i j => (ι pts vals (gridNode i j)).getD 0

/-- `scipy.interpolate.griddata(points, vals, (x, y), method='cubic',
fill_value=0)`: raises `QhullError` when the sample points are affinely
degenerate (fewer than 3 non-collinear points), otherwise evaluates the cubic
interpolant on the grid with fill value `0` outside the convex hull. -/
def griddataCubic (ι : Interp) (pts : List Pt) (vals : List ℚ) :
    Except PipeError Surface :=
  if allCollinear pts then .error .qhullDegenerate
  else .ok (interpSurface ι pts vals)

/-- `np.where(a < 0, 0, a)`: clamp every cell to `max(0, value)`
(`func_class.py` lines 56, 106, 148, 275, 322). -/
def clampNeg (s : Surface) : Surface :=
  fun i j => if s i j < 0 then 0 else s i j

/-- The kernel radius `scipy.ndimage.gaussian_filter` uses:
`int(truncate * sigma + 0.5)` with the defaults `truncate=4.0` and the
source's `sigma=3`, i.e. `12`. -/
def gaussRadius (sigma truncate : ℚ) : ℕ :=
  (⌊truncate * sigma + 1/2⌋).toNat

/-- Reflect-mode boundary indexing of `scipy.ndimage` (default
`mode='reflect'`, `(d c b a | a b c d | d c b a)`): an index `z` up to one
array length outside `[0, n)` is folded back inside.  The kernel radius `12`
is far below both array lengths `85` and `100`, so one fold suffices for
every in-range row or column. -/
def reflectIdx (n : ℕ) (z : ℤ) : ℤ :=
  if z < 0 then -z - 1
  else if (n : ℤ) ≤ z then 2 * n - 1 - z
  else z

/-- One-dimensional correlation along the rows (`axis=0`) with weights `w`
over offsets `-12..12`, reflect boundary mode, 85 rows. -/
def correlateRows (w : ℤ → ℚ) (s : Surface) : Surface :=
  fun i j =>
    ∑ k ∈ Finset.Icc (-12 : ℤ) 12, w k * s (reflectIdx 85 ((i : ℤ) + k)).toNat j

/-- One-dimensional correlation along the columns (`axis=1`) with weights `w`
over offsets `-12..12`, reflect boundary mode, 100 columns. -/
def correlateCols (w : ℤ → ℚ) (s : Surface) : Surface :=
  fun i j =>
    ∑ k ∈ Finset.Icc (-12 : ℤ) 12, w k * s i (reflectIdx 100 ((j : ℤ) + k)).toNat

/-- `scipy.ndimage.gaussian_filter(s, sigma=3)`: separable correlation with
the 1-D kernel `w`, first along axis 0 then along axis 1, reflect boundary
mode, radius `gaussRadius 3 4 = 12`.  The true weights
`w k = exp(-k^2/18) / Z` are transcendental, so the filter is parameterised
over `w`; the one fact of the true kernel the proofs use — every weight is
nonnegative — appears as an explicit hypothesis where needed. -/
def gaussianSmooth (w : ℤ → ℚ) (s : Surface) : Surface :=
  correlateCols w (correlateRows w s)

/-- The surface a successful run of the estimation pipeline produces:
cubic interpolation onto the grid (fill 0 outside the hull), then the
negative clamp, then Gaussian smoothing — in that order. -/
def smoothSurface (ι : Interp) (w : ℤ → ℚ) (recs : List ShotRecord) : Surface :=
  gaussianSmooth w (clampNeg (interpSurface ι (points recs) (values recs)))

/-- `generate_league_xgoals_smooth(data)` (`func_class.py` lines 34-61):
`griddata` cubic interpolation of the records' `xGoal` values on the rounded
mesh grid with `fill_value=0`, then `np.where(<0, 0, ·)`, then
`gaussian_filter(sigma=3)`. -/
def generateLeagueXgoalsSmooth (ι : Interp) (w : ℤ → ℚ)
    (data : List ShotRecord) : Except PipeError Surface := do
  let league ← griddataCubic ι (points data) (values data)
  let clamped := clampNeg league
  pure (gaussianSmooth w clamped)

/-- A constructed `Player`: its name and the rows of the dataset whose
`shooterName` equals it (`func_class.py` line 81). -/
structure Player where
  playerName : String
  data : List ShotRecord
deriving DecidableEq, Repr

/-- `Player.__init__(player_name, data)` (`func_class.py` lines 65-82):
raises `ValueError` when the name does not occur in the `shooterName` column,
otherwise keeps the rows filtered to that shooter. -/
def Player.make (playerName : String) (data : List ShotRecord) :
    Except PipeError Player :=
  if data.any (fun r => r.shooterName == playerName) then
    .ok ⟨playerName, data.filter fun r => r.shooterName == playerName⟩
  else .error .playerNotFound

/-- `self.total_shots = len(self.data)` (`func_class.py` line 82). -/
def Player.totalShots (p : Player) : ℕ := p.data.length

/-- The goal rows `self.data[self.data['event'] == 'GOAL']`
(`func_class.py` line 86). -/
def Player.goalCount (p : Player) : ℕ :=
  (p.data.filter fun r => r.event == "GOAL").length

/-- The shooting percentage of `get_basic_stats`
(`func_class.py` line 87): `len(goals) / self.total_shots * 100 if
self.total_shots > 0 else 0`. -/
def Player.shootingPercentage (p : Player) : ℚ :=
  if 0 < p.totalShots then (p.goalCount : ℚ) / (p.totalShots : ℚ) * 100 else 0

/-- The player's smoothed surface as computed inline in
`Player.compare_with_league` (`func_class.py` lines 142-151) and
`Player.shot_heatmap` (lines 101-107): the same interpolate / clamp / smooth
pipeline applied to the player's own rows. -/
def Player.shotsSmooth (ι : Interp) (w : ℤ → ℚ) (p : Player) :
    Except PipeError Surface := do
  let xg ← griddataCubic ι (points p.data) (values p.data)
  let clamped := clampNeg xg
  pure (gaussianSmooth w clamped)

/-- The elementwise difference of two same-shape arrays, the meaning of the
NumPy `-` at `func_class.py` lines 157 and 329 when both operands carry the
common `(85, 100)` grid shape. -/
def surfDiff (a b : Surface) : Surface :=
  fun i j => a i j - b i j

/-- `Player.compare_with_league(data=None)` (`func_class.py` lines 128-157,
numeric part): defaults the league data to the player's own rows (lines
139-140), builds the player surface and the league surface by the pipeline,
and subtracts them (line 157). -/
def Player.compareWithLeague (ι : Interp) (w : ℤ → ℚ) (p : Player)
    (data : Option (List ShotRecord)) : Except PipeError Surface := do
  let d := data.getD p.data
  let playerSmooth ← p.shotsSmooth ι w
  let leagueSmooth ← generateLeagueXgoalsSmooth ι w d
  pure (surfDiff playerSmooth leagueSmooth)

/-- A row of the skaters table: the columns `Team.get_team_players` reads. -/
structure SkaterRow where
  name : String
  team : String
deriving DecidableEq, Repr

/-- `pandas.Series.unique`: the distinct values in first-occurrence order
(each element, followed by the deduplication of the rest purged of its
repeats). -/
def uniqueFirst : List String → List String
  | [] => []
  | a :: rest => a :: (uniqueFirst rest).filter fun b => b ≠ a

/-- The roster names `team_players['name'].unique()` for a team
(`func_class.py` lines 212, 215). -/
def rosterNames (teamName : String) (skaters : List SkaterRow) : List String :=
  uniqueFirst ((skaters.filter fun row => row.team == teamName).map
    fun row => row.name)

/-- `Team.get_team_players` (`func_class.py` lines 205-220): for each distinct
roster name, filter the shot data to that shooter and keep a `Player` only
when the filtered data is nonempty (zero-shot roster players are skipped). -/
def getTeamPlayers (teamName : String) (shotData : List ShotRecord)
    (skaters : List SkaterRow) : List Player :=
  (rosterNames teamName skaters).filterMap fun n =>
    let playerData := shotData.filter fun r => r.shooterName == n
    if playerData.isEmpty then none else some ⟨n, playerData⟩

/-- `pd.concat([player.data for player in self.players])`
(`func_class.py` lines 263, 314): raises `ValueError` on an empty object
list, otherwise concatenates the players' rows in roster order. -/
def teamRecords (players : List Player) : Except PipeError (List ShotRecord) :=
  if players.isEmpty then .error .emptyConcat
  else .ok (players.flatMap fun p => p.data)

/-- The record-gathering prefix shared by `Team.shot_heatmap` and
`Team.compare_with_league`: resolve the roster, then concatenate the
players' rows. -/
def teamData (teamName : String) (shotData : List ShotRecord)
    (skaters : List SkaterRow) : Except PipeError (List ShotRecord) :=
  teamRecords (getTeamPlayers teamName shotData skaters)

/-- The numeric part of `Team.compare_with_league`
(`func_class.py` lines 297-329): default the league data to the team's full
shot table (lines 310-311), concatenate the roster players' rows (line 314),
run the pipeline on them and on the league data, and subtract (line 329). -/
def teamCompareWithLeague (ι : Interp) (w : ℤ → ℚ) (teamName : String)
    (shotData : List ShotRecord) (skaters : List SkaterRow)
    (leagueData : Option (List ShotRecord)) : Except PipeError Surface := do
  let d := leagueData.getD shotData
  let tdata ← teamData teamName shotData skaters
  let teamSmooth ← generateLeagueXgoalsSmooth ι w tdata
  let leagueSmooth ← generateLeagueXgoalsSmooth ι w d
  pure (surfDiff teamSmooth leagueSmooth)

/-- A 2-D NumPy array of some shape: row and column counts plus a totalised
cell function. -/
structure NpArray2 where
  rows : ℕ
  cols : ℕ
  val : ℕ → ℕ → ℚ

/-- NumPy broadcasting of one dimension: equal lengths keep the length, a
length of 1 stretches to the other, anything else is incompatible. -/
def bcastDim (a b : ℕ) : Option ℕ :=
  if a = b then some a
  else if a = 1 then some b
  else if b = 1 then some a
  else none

/-- NumPy `-` on two 2-D arrays: broadcast the shapes, raising `ValueError`
when a dimension pair is incompatible, and subtract elementwise, reading
index 0 along any stretched dimension.  This is the operator applied at
`func_class.py` lines 157 and 329. -/
def npSub (a b : NpArray2) : Except PipeError NpArray2 :=
  match bcastDim a.rows b.rows, bcastDim a.cols b.cols with
  | some r, some c =>
      .ok ⟨r, c, fun i j =>
        a.val (if a.rows = 1 then 0 else i) (if a.cols = 1 then 0 else j) -
        b.val (if b.rows = 1 then 0 else i) (if b.cols = 1 then 0 else j)⟩
  | _, _ => .error .shapeMismatch

/-! ## Helper lemmas -/

/-- `np.round` moves a value by at most a half: it rounds to a nearest
integer. -/
theorem roundHalfEven_near (q : ℚ) : |q - (roundHalfEven q : ℚ)| ≤ 1/2 := by
  have h0 : (⌊q⌋ : ℚ) ≤ q := Int.floor_le q
  have h1 : q < (⌊q⌋ : ℚ) + 1 := Int.lt_floor_add_one q
  unfold roundHalfEven
  by_cases hlt : q - (⌊q⌋ : ℚ) < 1/2
  · rw [if_pos hlt, abs_of_nonneg (by linarith)]
    linarith
  · rw [if_neg hlt]
    by_cases hgt : (1 : ℚ)/2 < q - (⌊q⌋ : ℚ)
    · rw [if_pos hgt, abs_of_nonpos (by push_cast; linarith)]
      push_cast
      linarith
    · rw [if_neg hgt]
      have heq : q - (⌊q⌋ : ℚ) = 1/2 := le_antisymm (not_lt.1 hgt) (not_lt.1 hlt)
      by_cases hdvd : 2 ∣ ⌊q⌋
      · rw [if_pos hdvd, abs_of_nonneg (by linarith)]
        linarith
      · rw [if_neg hdvd, abs_of_nonpos (by push_cast; linarith)]
        push_cast
        linarith

/-- The clamp makes every cell nonnegative. -/
theorem clampNeg_nonneg (s : Surface) (i j : ℕ) : 0 ≤ clampNeg s i j := by
  unfold clampNeg
  split
  · exact le_refl 0
  · exact le_of_not_lt (by assumption)

/-- A correlation pass with nonnegative weights preserves cellwise
nonnegativity. -/
theorem correlateRows_nonneg (w : ℤ → ℚ) (hw : ∀ k, 0 ≤ w k) (s : Surface)
    (hs : ∀ i j, 0 ≤ s i j) (i j : ℕ) : 0 ≤ correlateRows w s i j :=
  Finset.sum_nonneg fun k _ => mul_nonneg (hw k) (hs _ _)

/-- A correlation pass with nonnegative weights preserves cellwise
nonnegativity. -/
theorem correlateCols_nonneg (w : ℤ → ℚ) (hw : ∀ k, 0 ≤ w k) (s : Surface)
    (hs : ∀ i j, 0 ≤ s i j) (i j : ℕ) : 0 ≤ correlateCols w s i j :=
  Finset.sum_nonneg fun k _ => mul_nonneg (hw k) (hs _ _)

/-- Gaussian smoothing with nonnegative weights preserves cellwise
nonnegativity. -/
theorem gaussianSmooth_nonneg (w : ℤ → ℚ) (hw : ∀ k, 0 ≤ w k) (s : Surface)
    (hs : ∀ i j, 0 ≤ s i j) (i j : ℕ) : 0 ≤ gaussianSmooth w s i j :=
  correlateCols_nonneg w hw _ (correlateRows_nonneg w hw s hs) i j

/-- Every cell of a (successfully) estimated surface is nonnegative whenever
the smoothing weights are, because the smoothing input is clamped. -/
theorem smoothSurface_nonneg (ι : Interp) (w : ℤ → ℚ) (hw : ∀ k, 0 ≤ w k)
    (recs : List ShotRecord) (i j : ℕ) : 0 ≤ smoothSurface ι w recs i j :=
  gaussianSmooth_nonneg w hw _ (clampNeg_nonneg _) i j

/-- On a non-degenerate point set, the league pipeline succeeds and returns
exactly the interpolate-clamp-smooth composition. -/
theorem generateLeague_ok (ι : Interp) (w : ℤ → ℚ) (recs : List ShotRecord)
    (h : allCollinear (points recs) = false) :
    generateLeagueXgoalsSmooth ι w recs = .ok (smoothSurface ι w recs) := by
  simp [generateLeagueXgoalsSmooth, griddataCubic, smoothSurface, h,
    Bind.bind, Except.bind, pure, Except.pure]

/-- On a degenerate point set, the league pipeline propagates the Qhull
error. -/
theorem generateLeague_err (ι : Interp) (w : ℤ → ℚ) (recs : List ShotRecord)
    (h : allCollinear (points recs) = true) :
    generateLeagueXgoalsSmooth ι w recs = .error .qhullDegenerate := by
  simp [generateLeagueXgoalsSmooth, griddataCubic, h,
    Bind.bind, Except.bind]

/-- The inline player pipeline of `compare_with_league` / `shot_heatmap` is
the very computation of `generate_league_xgoals_smooth`, applied to the
player's rows. -/
theorem shotsSmooth_eq_league (ι : Interp) (w : ℤ → ℚ) (p : Player) :
    p.shotsSmooth ι w = generateLeagueXgoalsSmooth ι w p.data := rfl

/-- `pandas.Series.unique` keeps exactly the values of the input. -/
theorem mem_uniqueFirst (l : List String) (a : String) :
    a ∈ uniqueFirst l ↔ a ∈ l := by
  induction l with
  | nil => simp [uniqueFirst]
  | cons x rest ih =>
    rw [uniqueFirst]
    by_cases hax : a = x
    · subst hax
      simp
    · simp only [List.mem_cons, List.mem_filter, ih, hax, false_or]
      constructor
      · exact fun h => h.1
      · exact fun h => ⟨h, by simpa using hax⟩

/-- `pandas.Series.unique` yields pairwise-distinct values. -/
theorem nodup_uniqueFirst (l : List String) : (uniqueFirst l).Nodup := by
  induction l with
  | nil => simp [uniqueFirst]
  | cons x rest ih =>
    rw [uniqueFirst]
    refine List.nodup_cons.2 ⟨?_, ih.filter _⟩
    intro hmem
    have := (List.mem_filter.1 hmem).2
    simp at this

/-- Counting a record in one player's filtered rows: the full count when the
record's shooter is that player, zero otherwise. -/
theorem count_filter_shooter (shots : List ShotRecord) (n : String)
    (r : ShotRecord) :
    (shots.filter fun s => s.shooterName == n).count r =
      if r.shooterName = n then shots.count r else 0 := by
  by_cases h : r.shooterName = n
  · rw [if_pos h]
    exact List.count_filter (by simp [h])
  · rw [if_neg h]
    refine List.count_eq_zero.2 fun hmem => ?_
    have := (List.mem_filter.1 hmem).2
    simp at this
    exact h this

/-- Counting a record in the concatenation of the per-player filtered rows
over a duplicate-free name list: the full count when the record's shooter is
listed, zero otherwise.  Players whose filtered rows are empty are skipped by
`get_team_players`; they contribute nothing either way. -/
theorem count_team_flatMap (shots : List ShotRecord) (r : ShotRecord) :
    ∀ names : List String, names.Nodup →
      ((names.filterMap fun n =>
          let playerData := shots.filter fun s => s.shooterName == n
          if playerData.isEmpty then none
          else some (Player.mk n playerData)).flatMap Player.data).count r =
        if r.shooterName ∈ names then shots.count r else 0 := by
  intro names
  induction names with
  | nil => simp
  | cons n rest ih =>
    intro hnodup
    have hrest := ih (List.nodup_cons.1 hnodup).2
    have hn : n ∉ rest := (List.nodup_cons.1 hnodup).1
    simp only [List.filterMap_cons]
    by_cases hempty : (shots.filter fun s => s.shooterName == n).isEmpty
    · rw [if_pos hempty, hrest]
      have hcnt : (shots.filter fun s => s.shooterName == n).count r = 0 := by
        rw [List.isEmpty_iff.1 hempty]
        rfl
      rw [count_filter_shooter] at hcnt
      by_cases hsh : r.shooterName = n
      · rw [if_pos hsh] at hcnt
        rw [hcnt]
        simp
      · have hiff : (r.shooterName ∈ n :: rest) ↔ (r.shooterName ∈ rest) := by
          simp [List.mem_cons, hsh]
        rw [if_congr hiff rfl rfl]
    · rw [if_neg hempty]
      simp only [List.flatMap_cons, List.count_append]
      rw [hrest, count_filter_shooter]
      by_cases hsh : r.shooterName = n
      · have hnotrest : r.shooterName ∉ rest := hsh ▸ hn
        rw [if_pos hsh, if_neg hnotrest,
          if_pos (show r.shooterName ∈ n :: rest by simp [hsh])]
        exact Nat.add_zero _
      · have hiff : (r.shooterName ∈ n :: rest) ↔ (r.shooterName ∈ rest) := by
          simp [List.mem_cons, hsh]
        rw [if_neg hsh, Nat.zero_add, if_congr hiff rfl rfl]

/-! ## Concrete instances used by witnesses and counterexamples -/

/-- A trivial instantiation of the interpolant parameter (no query point in
the hull), used where the interpolant's values are irrelevant. -/
def trivInterp : Interp := fun _ _ _ => none

/-- A concrete nonnegative smoothing kernel instantiation. -/
def unifKernel : ℤ → ℚ := fun _ => 1/25

/-- Sample shot records: three by Ann (one a goal), one by Bob; the four
positions are not collinear, nor are Ann's three alone. -/
def rAnn1 : ShotRecord := ⟨"Ann", 10, 0, 1/10, "SHOT"⟩

def rAnn2 : ShotRecord := ⟨"Ann", 20, 0, 1/5, "GOAL"⟩

def rAnn3 : ShotRecord := ⟨"Ann", 10, 10, 3/20, "SHOT"⟩

def rBob : ShotRecord := ⟨"Bob", 20, 10, 1/4, "SHOT"⟩

def sampleShots : List ShotRecord := [rAnn1, rAnn2, rAnn3, rBob]

def annRows : List ShotRecord := [rAnn1, rAnn2, rAnn3]

def pAnn : Player := ⟨"Ann", annRows⟩

def sampleSkaters : List SkaterRow := [⟨"Ann", "OTT"⟩]

/-! ## Claims -/

/-- **C1, counterexample.**  The claim says `estimate` on an empty record
sequence returns the all-`fill_value` (0) Surface.  It does not: the bare
`griddata(method='cubic')` call receives the empty point set, which is
degenerate, so the pipeline raises (a `QhullError`) instead of producing any
Surface — there is no fallback in the code. -/
theorem C1_empty_records_error :
    generateLeagueXgoalsSmooth trivInterp unifKernel [] =
      .error .qhullDegenerate :=
  generateLeague_err _ _ _ rfl

/-- **C1, amended.**  For every grid interpolant and kernel, `estimate`
applied to a degenerate record set — the empty sequence, or any set whose
points are all collinear, which covers every set of fewer than 3
non-collinear points — raises the interpolation error rather than returning
a Surface; this holds for the league pipeline and the player pipeline alike.
With a non-degenerate point set the pipeline instead proceeds normally, so
no all-`fill_value` fallback exists on either side of the threshold. -/
theorem C1_degenerate_raises (ι : Interp) (w : ℤ → ℚ)
    (recs : List ShotRecord) (p : Player) :
    (allCollinear (points recs) = true →
      generateLeagueXgoalsSmooth ι w recs = .error .qhullDegenerate) ∧
    (allCollinear (points p.data) = true →
      p.shotsSmooth ι w = .error .qhullDegenerate) ∧
    (allCollinear (points recs) = false →
      generateLeagueXgoalsSmooth ι w recs = .ok (smoothSurface ι w recs)) :=
  ⟨generateLeague_err ι w recs,
   fun h => (shotsSmooth_eq_league ι w p).trans (generateLeague_err ι w p.data h),
   generateLeague_ok ι w recs⟩

/-- **C1, witness.**  The amended theorem applied to the empty record list
and to a player holding a single record (one point is degenerate). -/
theorem C1_degenerate_raises_witness :
    Player.shotsSmooth trivInterp unifKernel ⟨"Solo", [rBob]⟩ =
      .error .qhullDegenerate :=
  (C1_degenerate_raises trivInterp unifKernel [] ⟨"Solo", [rBob]⟩).2.1
    (by norm_num [rBob, points, allCollinear, collinearB, List.all])

/-- **C2, counterexample.**  The claim says the first rounded y-axis value is
`-43`.  It is `-42`: `np.round` rounds the exact tie `-42.5` half-to-even,
and `-43` is odd. -/
theorem C2_first_y_not_neg43 : yAxis 0 ≠ -43 := by
  norm_num [yAxis, ysRaw, linspace, roundHalfEven]

/-- **C2, amended.**  Grid axis generation: for bounds `(0, 100)` with 100
samples the first rounded axis value is `0` and the last is `100`; for bounds
`(-42.5, 42.5)` with 85 samples the first rounded axis value is `-42` and the
last is `42` (half-to-even rounding of the exact ties `±42.5`); and both axes
are rounded to a nearest integer (within one half of the raw value) before
use as interpolation query points. -/
theorem C2_grid_axes :
    xAxis 0 = 0 ∧ xAxis 99 = 100 ∧ yAxis 0 = -42 ∧ yAxis 84 = 42 ∧
    (∀ j : ℕ, |xsRaw j - (xAxis j : ℚ)| ≤ 1/2) ∧
    (∀ i : ℕ, |ysRaw i - (yAxis i : ℚ)| ≤ 1/2) :=
  ⟨by norm_num [xAxis, xsRaw, linspace, roundHalfEven],
   by norm_num [xAxis, xsRaw, linspace, roundHalfEven],
   by norm_num [yAxis, ysRaw, linspace, roundHalfEven],
   by norm_num [yAxis, ysRaw, linspace, roundHalfEven],
   fun j => roundHalfEven_near (xsRaw j),
   fun i => roundHalfEven_near (ysRaw i)⟩

/-- **C3, counterexample.**  The claim says the final (post-smoothing)
Surface may contain small negative values.  It cannot: the smoothing input is
clamped to be nonnegative, and for any nonnegative kernel weights — the true
Gaussian weights `exp(-k^2/18)/Z` are positive — the correlation of a
nonnegative array stays nonnegative, whatever the records and the
interpolant. -/
theorem C3_no_negative_after_smoothing :
    ¬ ∃ (ι : Interp) (w : ℤ → ℚ) (recs : List ShotRecord) (i j : ℕ),
      (∀ k, 0 ≤ w k) ∧ smoothSurface ι w recs i j < 0 := by
  rintro ⟨ι, w, recs, i, j, hw, hneg⟩
  exact absurd hneg (not_lt.2 (smoothSurface_nonneg ι w hw recs i j))

/-- **C3, amended.**  For every input record set (non-degenerate, so that the
pipeline runs) `estimate` performs its steps in this fixed order: cubic
scattered-data interpolation with fill value 0 outside the convex hull, then
clamping every cell to `max(0, value)`, then Gaussian smoothing with the
sigma-3 kernel; no clamp is applied after the smoothing.  Every cell of the
pre-smoothing array is `≥ 0`, and — because the Gaussian kernel weights are
nonnegative — every cell of the final Surface is `≥ 0` as well: the blur
cannot reintroduce negative values. -/
theorem C3_pipeline_order_and_sign (ι : Interp) (w : ℤ → ℚ)
    (recs : List ShotRecord) (hw : ∀ k, 0 ≤ w k)
    (hnc : allCollinear (points recs) = false) :
    generateLeagueXgoalsSmooth ι w recs =
      .ok (gaussianSmooth w
        (clampNeg (interpSurface ι (points recs) (values recs)))) ∧
    (∀ i j, 0 ≤ clampNeg (interpSurface ι (points recs) (values recs)) i j) ∧
    (∀ i j, 0 ≤ smoothSurface ι w recs i j) :=
  ⟨generateLeague_ok ι w recs hnc,
   fun i j => clampNeg_nonneg _ i j,
   fun i j => smoothSurface_nonneg ι w hw recs i j⟩

/-- **C3, witness.**  The pipeline on Ann's three non-collinear records with
a concrete nonnegative kernel. -/
theorem C3_pipeline_order_and_sign_witness :
    generateLeagueXgoalsSmooth trivInterp unifKernel annRows =
      .ok (gaussianSmooth unifKernel
        (clampNeg (interpSurface trivInterp (points annRows)
          (values annRows)))) ∧
    0 ≤ smoothSurface trivInterp unifKernel annRows 0 0 :=
  have h := C3_pipeline_order_and_sign trivInterp unifKernel annRows
    (fun k => by norm_num [unifKernel])
    (by norm_num [annRows, points, allCollinear, collinearB, List.all,
      rAnn1, rAnn2, rAnn3])
  ⟨h.1, h.2.2 0 0⟩

/-- **C4.**  The difference step of `compare_with_league` — player (line 157)
and team (line 329) alike — is the exact elementwise subtraction
`subject[i][j] - baseline[i][j]` of the two smoothed surfaces, with no
clamping, no smoothing and no re-normalisation or shifting applied to the
result: whenever the two pipelines succeed the comparison returns exactly
`surfDiff subject baseline`, and `surfDiff` at every cell is literally the
subtraction of that cell's values (so cells may be negative or positive). -/
theorem C4_difference_is_exact_subtraction (ι : Interp) (w : ℤ → ℚ)
    (p : Player) (dataOpt : Option (List ShotRecord)) (teamName : String)
    (shotData : List ShotRecord) (skaters : List SkaterRow)
    (leagueOpt : Option (List ShotRecord)) (td : List ShotRecord) :
    (∀ a b : Surface, ∀ i j, surfDiff a b i j = a i j - b i j) ∧
    (allCollinear (points p.data) = false →
      allCollinear (points (dataOpt.getD p.data)) = false →
      p.compareWithLeague ι w dataOpt =
        .ok (surfDiff (smoothSurface ι w p.data)
          (smoothSurface ι w (dataOpt.getD p.data)))) ∧
    (teamData teamName shotData skaters = .ok td →
      allCollinear (points td) = false →
      allCollinear (points (leagueOpt.getD shotData)) = false →
      teamCompareWithLeague ι w teamName shotData skaters leagueOpt =
        .ok (surfDiff (smoothSurface ι w td)
          (smoothSurface ι w (leagueOpt.getD shotData)))) := by
  refine ⟨fun a b i j => rfl, fun hp hd => ?_, fun htd ht hl => ?_⟩
  · rw [Player.compareWithLeague, shotsSmooth_eq_league,
      generateLeague_ok ι w p.data hp, generateLeague_ok ι w _ hd]
    rfl
  · rw [teamCompareWithLeague, htd]
    show (do
      let teamSmooth ← generateLeagueXgoalsSmooth ι w td
      let leagueSmooth ← generateLeagueXgoalsSmooth ι w (leagueOpt.getD shotData)
      pure (surfDiff teamSmooth leagueSmooth) : Except PipeError Surface) = _
    rw [generateLeague_ok ι w td ht, generateLeague_ok ι w _ hl]
    rfl

/-- **C4, witness.**  Ann compared against the four-record sample league, and
team OTT compared against the same league data. -/
theorem C4_difference_is_exact_subtraction_witness :
    Player.compareWithLeague trivInterp unifKernel pAnn (some sampleShots) =
      .ok (surfDiff (smoothSurface trivInterp unifKernel pAnn.data)
        (smoothSurface trivInterp unifKernel sampleShots)) ∧
    teamCompareWithLeague trivInterp unifKernel "OTT" sampleShots
        sampleSkaters none =
      .ok (surfDiff (smoothSurface trivInterp unifKernel annRows)
        (smoothSurface trivInterp unifKernel sampleShots)) := by
  have hAnn : allCollinear (points annRows) = false := by
    norm_num [annRows, points, allCollinear, collinearB, List.all,
      rAnn1, rAnn2, rAnn3]
  have hAll : allCollinear (points sampleShots) = false := by
    norm_num [sampleShots, points, allCollinear, collinearB, List.all,
      rAnn1, rAnn2, rAnn3, rBob]
  have htd : teamData "OTT" sampleShots sampleSkaters = .ok annRows := rfl
  exact ⟨(C4_difference_is_exact_subtraction trivInterp unifKernel pAnn
      (some sampleShots) "OTT" sampleShots sampleSkaters none annRows).2.1
      hAnn hAll,
    (C4_difference_is_exact_subtraction trivInterp unifKernel pAnn
      (some sampleShots) "OTT" sampleShots sampleSkaters none annRows).2.2
      htd hAnn hAll⟩

/-- **C5.**  The comparison's subtraction satisfies the identity and
antisymmetry laws: a Surface differenced with itself is all-zero, and
swapping subject and baseline negates every cell. -/
theorem C5_difference_identity_antisymmetry :
    (∀ S : Surface, surfDiff S S = fun _ _ => (0 : ℚ)) ∧
    (∀ A B : Surface, surfDiff A B = fun i j => -(surfDiff B A i j)) := by
  constructor
  · intro S
    funext i j
    exact sub_self _
  · intro A B
    funext i j
    simp [surfDiff]

/-- **C6, counterexample.**  The claim says a team scope resolving to zero
roster matches raises a distinct `EmptyScope`, while a roster of players with
zero shots yields an all-zero Surface via the fallback.  Neither happens:
`"NYR"` matches no skater row, and team `"VAN"`'s only roster player Ann has
no shot rows — both produce the empty player list and then the identical
`pd.concat`-on-empty error, with no distinct scope condition and no all-zero
Surface. -/
theorem C6_scopes_indistinguishable :
    getTeamPlayers "NYR" sampleShots sampleSkaters = [] ∧
    teamData "NYR" sampleShots sampleSkaters = .error .emptyConcat ∧
    getTeamPlayers "VAN" [rBob] [⟨"Ann", "VAN"⟩] = [] ∧
    teamData "VAN" [rBob] [⟨"Ann", "VAN"⟩] = .error .emptyConcat :=
  ⟨rfl, rfl, rfl, rfl⟩

/-- **C6, amended.**  The player list of a team scope is empty exactly when
every skater row matching the team names a shooter with no shot rows — which
covers both a scope with zero roster matches and a scope whose roster players
all took zero shots — and in either case the team pipeline fails with the
same `pd.concat`-on-empty-list error: the two situations are not
distinguished, no dedicated empty-scope condition is raised, and no all-zero
Surface is produced. -/
theorem C6_empty_scope_behaviour (t : String) (shots : List ShotRecord)
    (skaters : List SkaterRow) :
    (getTeamPlayers t shots skaters = [] ↔
      ∀ row ∈ skaters, row.team = t →
        shots.filter (fun r => r.shooterName == row.name) = []) ∧
    (getTeamPlayers t shots skaters = [] →
      teamData t shots skaters = .error .emptyConcat) := by
  constructor
  · rw [getTeamPlayers, List.filterMap_eq_nil_iff]
    constructor
    · intro h row hrow hteam
      have hmem : row.name ∈ rosterNames t skaters := by
        rw [rosterNames, mem_uniqueFirst]
        exact List.mem_map_of_mem _ (List.mem_filter.2 ⟨hrow, by simp [hteam]⟩)
      have hnone := h row.name hmem
      by_cases hemp : (shots.filter fun r => r.shooterName == row.name).isEmpty
      · exact List.isEmpty_iff.1 hemp
      · simp only [hemp] at hnone
        simp at hnone
    · intro h n hn
      rw [rosterNames, mem_uniqueFirst] at hn
      obtain ⟨row, hrow, rfl⟩ := List.mem_map.1 hn
      have hfr := List.mem_filter.1 hrow
      have hnil := h row hfr.1 (by simpa using hfr.2)
      simp [hnil]
  · intro h
    simp [teamData, teamRecords, h]

/-- **C6, witness.**  The amended theorem applied to a team scope with an
empty skaters table. -/
theorem C6_empty_scope_behaviour_witness :
    teamData "OTT" sampleShots [] = .error .emptyConcat :=
  (C6_empty_scope_behaviour "OTT" sampleShots []).2 rfl

/-- **C7, counterexample.**  The claim says `difference` on Surfaces of
different shapes fails fast and never produces a result.  NumPy subtraction
has no such guard: a `(2, 2)` array minus a `(1, 2)` array broadcasts
silently and succeeds. -/
theorem C7_broadcast_succeeds :
    (npSub ⟨2, 2, fun _ _ => 1⟩ ⟨1, 2, fun _ _ => 0⟩).isOk = true :=
  rfl

/-- **C7, amended.**  The subtraction at the difference step performs no
GridSpec comparison: it fails (with NumPy's broadcasting `ValueError`)
exactly when a dimension pair is broadcast-incompatible — shape pairs where a
dimension differs but one side is 1 are silently broadcast instead of
failing — and on equal shapes it produces the exact elementwise difference
(in this program both operands always carry the fixed `(85, 100)` grid shape,
so the mismatch path is never taken). -/
theorem C7_no_shape_guard (a b : NpArray2) :
    (npSub a b = .error .shapeMismatch ↔
      bcastDim a.rows b.rows = none ∨ bcastDim a.cols b.cols = none) ∧
    (a.rows = b.rows → a.cols = b.cols → ∀ c, npSub a b = .ok c →
      c.rows = a.rows ∧ c.cols = a.cols ∧
      ∀ i j, i < a.rows → j < a.cols → c.val i j = a.val i j - b.val i j) := by
  constructor
  · rw [npSub]
    rcases h1 : bcastDim a.rows b.rows with _ | r
    · simp [h1]
    · rcases h2 : bcastDim a.cols b.cols with _ | c
      · simp [h1, h2]
      · simp [h1, h2]
  · intro hr hc c hok
    have h1 : bcastDim a.rows b.rows = some a.rows := by
      simp [bcastDim, hr]
    have h2 : bcastDim a.cols b.cols = some a.cols := by
      simp [bcastDim, hc]
    rw [npSub, h1, h2] at hok
    obtain rfl : c = ⟨a.rows, a.cols, _⟩ := (Except.ok.inj hok).symm
    refine ⟨rfl, rfl, fun i j hi hj => ?_⟩
    have hia : (if a.rows = 1 then 0 else i) = i := by
      split
      · omega
      · rfl
    have hja : (if a.cols = 1 then 0 else j) = j := by
      split
      · omega
      · rfl
    have hib : (if b.rows = 1 then 0 else i) = i := by
      split
      · omega
      · rfl
    have hjb : (if b.cols = 1 then 0 else j) = j := by
      split
      · omega
      · rfl
    simp only [hia, hja, hib, hjb]

/-- **C7, witness.**  The amended theorem applied to a broadcast-incompatible
shape pair `(2, 3)` vs `(4, 3)`: only there does the subtraction fail. -/
theorem C7_no_shape_guard_witness :
    npSub ⟨2, 3, fun _ _ => 0⟩ ⟨4, 3, fun _ _ => 0⟩ =
      .error .shapeMismatch :=
  (C7_no_shape_guard ⟨2, 3, fun _ _ => 0⟩ ⟨4, 3, fun _ _ => 0⟩).1.mpr
    (Or.inl (by norm_num [bcastDim]))

/-- **C8.**  The team-level record set fed to the estimation pipeline is the
multiset concatenation of the records of every player resolved onto the
team's roster at query time, with no deduplication and no reweighting: every
record whose shooter is a roster name occurs in it exactly as often as in the
full shot table, and records of non-roster shooters do not occur at all. -/
theorem C8_team_records_multiset (t : String) (shots : List ShotRecord)
    (skaters : List SkaterRow) (rs : List ShotRecord)
    (h : teamData t shots skaters = .ok rs) (r : ShotRecord) :
    rs.count r =
      if r.shooterName ∈ rosterNames t skaters then shots.count r else 0 := by
  rw [teamData, teamRecords] at h
  by_cases hemp : (getTeamPlayers t shots skaters).isEmpty
  · simp [hemp] at h
  · simp only [hemp, Bool.false_eq_true, if_false] at h
    obtain rfl := Except.ok.inj h
    rw [getTeamPlayers]
    exact count_team_flatMap shots r (rosterNames t skaters)
      (nodup_uniqueFirst _)

/-- **C8, witness.**  Team OTT's gathered records are Ann's rows; a record by
the roster player Ann is counted exactly as often as in the full table. -/
theorem C8_team_records_multiset_witness :
    annRows.count rAnn1 =
      if rAnn1.shooterName ∈ rosterNames "OTT" sampleSkaters then
        sampleShots.count rAnn1
      else 0 :=
  C8_team_records_multiset "OTT" sampleShots sampleSkaters annRows rfl rAnn1

/-- **C9.**  For every successfully constructed `Player`, calling
`compare_with_league` with the data argument omitted (`None`) uses the
player's own records as the league baseline — the call is literally the same
computation as passing the player's rows explicitly — so both surfaces are
produced by the identical pipeline on identical records, and whenever the
pipeline runs (non-degenerate rows) the resulting difference Surface is
all-zero. -/
theorem C9_default_data_gives_zero (ι : Interp) (w : ℤ → ℚ) (name : String)
    (data : List ShotRecord) (p : Player) (_hmk : Player.make name data = .ok p) :
    p.compareWithLeague ι w none = p.compareWithLeague ι w (some p.data) ∧
    (allCollinear (points p.data) = false →
      p.compareWithLeague ι w none = .ok fun _ _ => (0 : ℚ)) := by
  refine ⟨rfl, fun hnc => ?_⟩
  rw [Player.compareWithLeague]
  show (do
    let playerSmooth ← p.shotsSmooth ι w
    let leagueSmooth ← generateLeagueXgoalsSmooth ι w p.data
    pure (surfDiff playerSmooth leagueSmooth) : Except PipeError Surface) = _
  rw [shotsSmooth_eq_league, generateLeague_ok ι w p.data hnc]
  show Except.ok (surfDiff (smoothSurface ι w p.data)
    (smoothSurface ι w p.data)) = _
  exact congrArg Except.ok (funext fun i => funext fun j => sub_self _)

/-- **C9, witness.**  Ann, constructed from the sample table, compared with
the league data omitted: the difference Surface is all-zero. -/
theorem C9_default_data_gives_zero_witness :
    Player.compareWithLeague trivInterp unifKernel pAnn none =
      .ok fun _ _ => (0 : ℚ) :=
  (C9_default_data_gives_zero trivInterp unifKernel "Ann" sampleShots pAnn
      rfl).2
    (by norm_num [annRows, points, allCollinear, collinearB, List.all,
      rAnn1, rAnn2, rAnn3, pAnn])

/-- **C10.**  Constructing a `Player` raises `ValueError` exactly when the
given name does not occur in the dataset's `shooterName` column; when
construction succeeds the player's record set is non-empty
(`total_shots ≥ 1`), and the shooting-percentage computation of
`get_basic_stats` takes its division branch, whose divisor `total_shots` is
therefore nonzero. -/
theorem C10_player_construction (name : String) (data : List ShotRecord) :
    (Player.make name data = .error .playerNotFound ↔
      ∀ r ∈ data, r.shooterName ≠ name) ∧
    (∀ p, Player.make name data = .ok p →
      1 ≤ p.totalShots ∧
      p.shootingPercentage = (p.goalCount : ℚ) / (p.totalShots : ℚ) * 100) := by
  by_cases hany : data.any (fun r => r.shooterName == name)
  · have hanytrue : (data.any fun r => r.shooterName == name) = true := hany
    rw [List.any_eq_true] at hany
    obtain ⟨r0, hr0, hr0name⟩ := hany
    rw [beq_iff_eq] at hr0name
    constructor
    · rw [Player.make, if_pos hanytrue]
      simp only [reduceCtorEq, false_iff]
      push_neg
      exact ⟨r0, hr0, hr0name⟩
    · intro p hp
      rw [Player.make, if_pos hanytrue] at hp
      obtain rfl := (Except.ok.inj hp).symm
      have hmem : r0 ∈ data.filter fun r => r.shooterName == name :=
        List.mem_filter.2 ⟨hr0, beq_iff_eq.2 hr0name⟩
      have hlen : 1 ≤ (data.filter fun r => r.shooterName == name).length :=
        List.length_pos.2 (List.ne_nil_of_mem hmem)
      refine ⟨hlen, ?_⟩
      rw [Player.shootingPercentage, if_pos]
      exact hlen
  · have hall : ∀ r ∈ data, r.shooterName ≠ name := by
      intro r hr
      rw [List.any_eq_true] at hany
      push_neg at hany
      simpa using hany r hr
    constructor
    · rw [Player.make, if_neg hany]
      simp only [true_iff]
      exact hall
    · intro p hp
      rw [Player.make, if_neg hany] at hp
      exact absurd hp (by simp)

/-- **C10, witness.**  Ann is in the sample table, so construction succeeds,
her record set has at least one row, and the percentage is the guarded
quotient. -/
theorem C10_player_construction_witness :
    1 ≤ Player.totalShots pAnn ∧
    Player.shootingPercentage pAnn =
      (Player.goalCount pAnn : ℚ) / (Player.totalShots pAnn : ℚ) * 100 :=
  (C10_player_construction "Ann" sampleShots).2 pAnn rfl

end Sports
